import Mathlib

/-!
Verification development for the lambda-chat-server repository.

The relay (signaling server, `server.js`) and the browser client
(`client.js`) are shallowly embedded below.  JavaScript `Map` objects are
modelled as insertion-ordered association lists (`Map.set` replaces in
place or appends, `Map.get` is `find?`, `Map.delete` is `filter`,
`forEach` iterates in list order).  A JSON text frame is either a parse
failure or a parsed envelope; an uncaught JavaScript exception is
modelled by `Except.error`.
-/

namespace LambdaChat

/-- `Map.get` on a JS `Map` keyed by numbers. -/
def Assoc.get (l : List (Nat × α)) (k : Nat) : Option α :=
  (l.find? (fun p => p.1 == k)).map (fun p => p.2)

/-- `Map.set`: replace in place when the key is present, else append
(JS `Map` preserves insertion order). -/
def Assoc.set (l : List (Nat × α)) (k : Nat) (v : α) : List (Nat × α) :=
  if l.any (fun p => p.1 == k) then
    l.map (fun p => if p.1 == k then (k, v) else p)
  else
    l ++ [(k, v)]

/-- `Map.delete`. -/
def Assoc.erase (l : List (Nat × α)) (k : Nat) : List (Nat × α) :=
  l.filter (fun p => p.1 != k)

/-- JS truthiness of a possibly-absent numeric field
(`undefined` and `0` are falsy). -/
def optNatTruthy : Option Nat → Bool
  | some n => n != 0
  | none => false

/-- The parsed form of a JSON wire frame.  All envelope kinds of the
protocol share one record; a field that the concrete JSON object lacks is
`none` / `[]`.  `offer`, `answer` and `candidate` stand for the SDP /
candidate payloads, kept as opaque strings. -/
structure Envelope where
  type : String := ""
  username : Option String := none
  targetPeerId : Option Nat := none
  senderId : Option Nat := none
  peerId : Option Nat := none
  peers : List (Nat × Option String) := []
  offer : Option String := none
  answer : Option String := none
  candidate : Option String := none
deriving Repr, DecidableEq

/-- Result of `JSON.parse` on a received text frame. -/
inductive Frame where
  | malformed
  | ok (e : Envelope)
deriving Repr, DecidableEq

/-- A registered client as stored in the relay's `clients` map:
the websocket handle (of which only `readyState === OPEN` matters here)
and the registration username (`data.username`, possibly absent). -/
structure RClient where
  wsOpen : Bool
  username : Option String
deriving Repr, DecidableEq

/-- The relay's module-level mutable state (`server.js` lines 5-6):
`let nextClientId = 1` and `const clients = new Map()`. -/
structure ServerState where
  nextClientId : Nat := 1
  clients : List (Nat × RClient) := []
deriving Repr, DecidableEq

/-- Outcome of one relay event handler: the new server state, the
envelopes sent (recipient clientId paired with the envelope), whether the
handler called `ws.close()` on its own transport, and - for the first
message handler - the username under which the connection registered
(`none` when no registration happened). -/
structure StepOut where
  state : ServerState
  sends : List (Nat × Envelope)
  closedSelf : Bool
  registeredUsername : Option (Option String) := none
deriving Repr, DecidableEq

/-- `wss.on('connection', ...)` prologue (`server.js` line 9):
`const clientId = nextClientId++` - the id is consumed the moment the
transport connects, before any frame arrives; the `clients` map is not
touched. -/
def handleConnection (s : ServerState) : Nat × ServerState :=
  (s.nextClientId, { s with nextClientId := s.nextClientId + 1 })

/-- `ws.once('message', ...)` (`server.js` lines 12-80): the first frame
on a connection.  A parse failure or a first envelope whose `type` is not
`"register"` closes the transport and leaves the registry untouched.
Otherwise the client is stored, an `existing-peers` envelope is sent back
only when at least one other peer is registered, and `new-peer` is
broadcast to every other client whose socket is open.  `selfOpen` is the
current `readyState` of the registering socket, recorded in its map
entry. -/
def handleFirstMessage (s : ServerState) (clientId : Nat) (selfOpen : Bool)
    (f : Frame) : StepOut :=
  match f with
  | Frame.malformed => { state := s, sends := [], closedSelf := true }
  | Frame.ok e =>
    if e.type != "register" then
      { state := s, sends := [], closedSelf := true }
    else
      let username := e.username
      let clients1 := Assoc.set s.clients clientId { wsOpen := selfOpen, username := username }
      let existingPeers := (clients1.filter (fun p => p.1 != clientId)).map
        (fun p => (p.1, p.2.username))
      let sends1 : List (Nat × Envelope) :=
        if existingPeers.length > 0 then
          [(clientId, { type := "existing-peers", peers := existingPeers })]
        else []
      let sends2 : List (Nat × Envelope) :=
        (clients1.filter (fun p => p.1 != clientId && p.2.wsOpen)).map
          (fun p => (p.1, { type := "new-peer", peerId := some clientId, username := username }))
      { state := { s with clients := clients1 },
        sends := sends1 ++ sends2,
        closedSelf := false,
        registeredUsername := some username }

/-- `ws.on('message', ...)` installed after registration (`server.js`
lines 61-75).  `JSON.parse` is NOT wrapped in try/catch here, so a
malformed frame raises an uncaught exception (`Except.error`).  A parsed
envelope is stamped with `senderId`/`username`; if `data.targetPeerId` is
truthy the one target is looked up and the stamped envelope forwarded iff
its socket is open.  There is no branch for envelopes without a target:
they are dropped. -/
def handleMessage (s : ServerState) (clientId : Nat) (username : Option String)
    (f : Frame) : Except String StepOut :=
  match f with
  | Frame.malformed => Except.error "SyntaxError: Unexpected token in JSON"
  | Frame.ok e =>
    let data := { e with senderId := some clientId, username := username }
    match data.targetPeerId with
    | some t =>
      if t != 0 then
        match Assoc.get s.clients t with
        | some targetPeer =>
          if targetPeer.wsOpen then
            Except.ok { state := s, sends := [(t, data)], closedSelf := false }
          else
            Except.ok { state := s, sends := [], closedSelf := false }
        | none => Except.ok { state := s, sends := [], closedSelf := false }
      else
        Except.ok { state := s, sends := [], closedSelf := false }
    | none => Except.ok { state := s, sends := [], closedSelf := false }

/-- `ws.on('close', ...)` (`server.js` lines 82-99): remove the client if
registered and broadcast `peer-disconnected` to every remaining open
client; a close of an unregistered connection is a no-op on the
registry. -/
def handleClose (s : ServerState) (clientId : Nat) : ServerState × List (Nat × Envelope) :=
  match Assoc.get s.clients clientId with
  | none => (s, [])
  | some client =>
    let clients1 := Assoc.erase s.clients clientId
    let sends := (clients1.filter (fun p => p.2.wsOpen)).map
      (fun p => (p.1, { type := "peer-disconnected", peerId := some clientId,
                        username := client.username }))
    ({ s with clients := clients1 }, sends)

/-!  Whole-process runs of the relay.  Events are delivered by the
single-threaded event loop; a connection is identified by the clientId it
was issued on connect.  `sessions` records the `(clientId, username)`
closures captured by the per-connection message handlers installed at
registration; `issued` and `registeredIds` log, in event order, the ids
handed out by `nextClientId++` and the ids that completed registration.
An uncaught exception from a message handler crashes the process, after
which no further event is processed. -/

inductive SysEvent where
  | connect
  | firstMsg (c : Nat) (selfOpen : Bool) (f : Frame)
  | msg (c : Nat) (f : Frame)
  | close (c : Nat)
deriving Repr, DecidableEq

structure SysState where
  server : ServerState := {}
  pending : List Nat := []
  sessions : List (Nat × Option String) := []
  issued : List Nat := []
  registeredIds : List Nat := []
  crashed : Bool := false
deriving Repr, DecidableEq

/-- Process start: `let nextClientId = 1`, empty registry. -/
def sysInit : SysState := {}

def sysStepCore (s : SysState) (ev : SysEvent) : SysState :=
  match ev with
  | SysEvent.connect =>
    let r := handleConnection s.server
    { s with server := r.2, pending := s.pending ++ [r.1], issued := s.issued ++ [r.1] }
  | SysEvent.firstMsg c selfOpen f =>
    if s.pending.contains c then
      let out := handleFirstMessage s.server c selfOpen f
      let s1 := { s with server := out.state, pending := s.pending.filter (fun x => x != c) }
      match out.registeredUsername with
      | some u =>
        { s1 with sessions := s1.sessions ++ [(c, u)],
                  registeredIds := s1.registeredIds ++ [c] }
      | none => s1
    else s
  | SysEvent.msg c f =>
    match Assoc.get s.sessions c with
    | none => s
    | some u =>
      match handleMessage s.server c u f with
      | Except.ok out => { s with server := out.state }
      | Except.error _ => { s with crashed := true }
  | SysEvent.close c =>
    let r := handleClose s.server c
    { s with server := r.1, pending := s.pending.filter (fun x => x != c) }

/-- One event-loop step: once the process has crashed (uncaught
exception) nothing further is processed. -/
def sysStep (s : SysState) (ev : SysEvent) : SysState :=
  if s.crashed then s else sysStepCore s ev

def sysRun (s : SysState) (evs : List SysEvent) : SysState :=
  evs.foldl sysStep s

/-- Run invariant of the relay process: ids in `issued` are all below the
id counter and listed in strictly increasing order; pending and
registered connections only carry issued ids; no id is pending twice,
registered twice, or pending and registered at once. -/
structure SysInv (s : SysState) : Prop where
  issuedLt : ∀ i ∈ s.issued, i < s.server.nextClientId
  issuedSorted : s.issued.Pairwise (· < ·)
  pendingSub : ∀ i ∈ s.pending, i ∈ s.issued
  pendingNodup : s.pending.Nodup
  regSub : ∀ i ∈ s.registeredIds, i ∈ s.issued
  regNodup : s.registeredIds.Nodup
  pendingNotReg : ∀ i ∈ s.pending, i ∉ s.registeredIds

/-!  Client embedding (`client.js`).  The external WebRTC transport
library is out of scope for the repository (spec section 1); its two
fallible primitives are modelled after the standard they implement:
`setRemoteDescription` rejects an invalid description (modelled as the
empty string, which is also what an absent field behaves like), and
`addIceCandidate` rejects with `InvalidStateError` when no remote
description has been set, else rejects an invalid candidate.  What is
under verification is the client's own catch/queue/bookkeeping logic
around these calls. -/

structure RTCPeerConnection where
  localDescription : Option String := none
  remoteDescription : Option String := none
  appliedCandidates : List String := []
deriving Repr, DecidableEq

def RTCPeerConnection.setRemoteDescription (pc : RTCPeerConnection) (d : String) :
    Except String RTCPeerConnection :=
  if d = "" then Except.error "InvalidSdpError"
  else Except.ok { pc with remoteDescription := some d }

def RTCPeerConnection.addIceCandidate (pc : RTCPeerConnection) (c : String) :
    Except String RTCPeerConnection :=
  match pc.remoteDescription with
  | none => Except.error "InvalidStateError"
  | some _ =>
    if c = "" then Except.error "OperationError"
    else Except.ok { pc with appliedCandidates := pc.appliedCandidates ++ [c] }

structure DataChannel where
  readyState : String := "connecting"
deriving Repr, DecidableEq

/-- The client's `state` object (`client.js` lines 21-30). -/
structure ClientState where
  peerConnections : List (Nat × RTCPeerConnection) := []
  dataChannels : List (Nat × DataChannel) := []
  peerUsernames : List (Nat × Option String) := []
  myPeerId : Option Nat := none
deriving Repr, DecidableEq

def initClientState : ClientState := {}

/-- A `(level, message)` pair passed to the logging callback. -/
abbrev LogEntry := String × String

/-- `createPeerConnection(peerId, initiator)` (`client.js` lines
97-131): store a fresh connection handle; as initiator also create the
chat data channel (`setupDataChannel` stores it immediately, still in
`connecting` state), produce a local offer, set it as local description
and send an `offer` envelope targeted at the peer.  The envelopes the
function hands to `ws.send` are returned. -/
def createPeerConnection (st : ClientState) (peerId : Nat) (initiator : Bool) :
    ClientState × List Envelope :=
  let pc : RTCPeerConnection := {}
  let st1 := { st with peerConnections := Assoc.set st.peerConnections peerId pc }
  if initiator then
    let st2 := { st1 with dataChannels := Assoc.set st1.dataChannels peerId {} }
    let offerSdp := "offer-sdp"
    let pcOff : RTCPeerConnection := { pc with localDescription := some offerSdp }
    let st3 := { st2 with peerConnections := Assoc.set st2.peerConnections peerId pcOff }
    (st3, [{ type := "offer", offer := some offerSdp, targetPeerId := some peerId }])
  else
    (st1, [])

/-- `handleOffer(data)` (`client.js` lines 133-150).  The call to
`setRemoteDescription` is NOT wrapped in try/catch: on failure the third
component carries the exception escaping the handler, and the state
changes already made (the freshly created connection) persist. -/
def handleOffer (st : ClientState) (data : Envelope) :
    ClientState × List Envelope × Option String :=
  match data.senderId with
  | none => (st, [], none)
  | some pid =>
    let r :=
      match Assoc.get st.peerConnections pid with
      | some pc => (st, ([] : List Envelope), pc)
      | none =>
        let r0 := createPeerConnection st pid false
        (r0.1, r0.2, ({} : RTCPeerConnection))
    match r.2.2.setRemoteDescription ((data.offer).getD "") with
    | Except.error e => (r.1, r.2.1, some e)
    | Except.ok pc1 =>
      let answerSdp := "answer-sdp"
      let pc2 := { pc1 with localDescription := some answerSdp }
      ({ r.1 with peerConnections := Assoc.set r.1.peerConnections pid pc2 },
       r.2.1 ++ [{ type := "answer", answer := some answerSdp, targetPeerId := some pid }],
       none)

/-- `handleAnswer(data)` (`client.js` lines 152-161): the
`setRemoteDescription` call IS wrapped in try/catch; a failure is logged
at `error` level and the state is left unchanged. -/
def handleAnswer (st : ClientState) (data : Envelope) : ClientState × List LogEntry :=
  match data.senderId with
  | none => (st, [])
  | some pid =>
    match Assoc.get st.peerConnections pid with
    | none => (st, [])
    | some pc =>
      match pc.setRemoteDescription ((data.answer).getD "") with
      | Except.ok pc1 =>
        ({ st with peerConnections := Assoc.set st.peerConnections pid pc1 }, [])
      | Except.error e =>
        (st, [("error", "Error setting remote description: " ++ e)])

/-- `handleIceCandidate(data)` (`client.js` lines 163-172): the
`addIceCandidate` call is wrapped in try/catch; a failure is logged at
`error` level and the state is left unchanged - the candidate is dropped,
there is no queue. -/
def handleIceCandidate (st : ClientState) (data : Envelope) : ClientState × List LogEntry :=
  match data.senderId with
  | none => (st, [])
  | some pid =>
    match Assoc.get st.peerConnections pid with
    | none => (st, [])
    | some pc =>
      match pc.addIceCandidate ((data.candidate).getD "") with
      | Except.ok pc1 =>
        ({ st with peerConnections := Assoc.set st.peerConnections pid pc1 }, [])
      | Except.error e =>
        (st, [("error", "Error adding received ice candidate: " ++ e)])

/-- `handlePeerDisconnection(peerId, username)` (`client.js` lines
194-203): close and drop the connection handle if present, then delete
the data-channel and username entries, and log at `info` level. -/
def handlePeerDisconnection (st : ClientState) (peerId : Nat) :
    ClientState × List LogEntry :=
  let st1 :=
    match Assoc.get st.peerConnections peerId with
    | some _ => { st with peerConnections := Assoc.erase st.peerConnections peerId }
    | none => st
  let st2 := { st1 with dataChannels := Assoc.erase st1.dataChannels peerId,
                        peerUsernames := Assoc.erase st1.peerUsernames peerId }
  (st2, [("info", "Peer disconnected")])

/-- Result of one invocation of the client's `ws.onmessage` handler:
new state, envelopes sent to the relay, log entries, and the uncaught
exception escaping the (async) handler, if any. -/
structure ClientStep where
  state : ClientState
  outs : List Envelope
  logs : List LogEntry
  threw : Option String := none
deriving Repr, DecidableEq

/-- One iteration of the `existing-peers` loop (`client.js` lines
72-75): record the username, then create an initiator connection. -/
def existingPeersStep (acc : ClientState × List Envelope) (peer : Nat × Option String) :
    ClientState × List Envelope :=
  let st1 := { acc.1 with peerUsernames := Assoc.set acc.1.peerUsernames peer.1 peer.2 }
  let r2 := createPeerConnection st1 peer.1 true
  (r2.1, acc.2 ++ r2.2)

/-- The `switch (data.type)` dispatch of `ws.onmessage` (`client.js`
lines 70-94), after the `myPeerId` update has been applied. -/
def clientDispatch (st : ClientState) (data : Envelope) : ClientStep :=
  let logs0 : List LogEntry := [("debug", "Received message")]
  if data.type = "existing-peers" then
    let r := data.peers.foldl existingPeersStep (st, [])
    { state := r.1, outs := r.2, logs := logs0 }
  else if data.type = "new-peer" then
    match data.peerId with
    | some p =>
      let st1 := { st with peerUsernames := Assoc.set st.peerUsernames p data.username }
      let r := createPeerConnection st1 p false
      { state := r.1, outs := r.2, logs := logs0 }
    | none => { state := st, outs := [], logs := logs0 }
  else if data.type = "offer" then
    let st1 :=
      match data.senderId with
      | some sid => { st with peerUsernames := Assoc.set st.peerUsernames sid data.username }
      | none => st
    let r := handleOffer st1 data
    { state := r.1, outs := r.2.1, logs := logs0, threw := r.2.2 }
  else if data.type = "answer" then
    let r := handleAnswer st data
    { state := r.1, outs := [], logs := logs0 ++ r.2 }
  else if data.type = "ice-candidate" then
    let r := handleIceCandidate st data
    { state := r.1, outs := [], logs := logs0 ++ r.2 }
  else if data.type = "peer-disconnected" then
    match data.peerId with
    | some p =>
      let r := handlePeerDisconnection st p
      { state := r.1, outs := [], logs := logs0 ++ r.2 }
    | none => { state := st, outs := [], logs := logs0 }
  else
    { state := st, outs := [], logs := logs0 }

/-- `ws.onmessage` (`client.js` lines 62-95): before dispatching,
`if (!state.myPeerId && data.senderId) state.myPeerId = data.senderId`
(JS truthiness on both sides). -/
def clientOnMessage (st : ClientState) (data : Envelope) : ClientStep :=
  let st1 :=
    if !(optNatTruthy st.myPeerId) && optNatTruthy data.senderId then
      { st with myPeerId := data.senderId }
    else st
  clientDispatch st1 data

/-- Fold a list of received envelopes through `ws.onmessage`; the event
loop keeps dispatching later messages even when an earlier async handler
raised (an unhandled promise rejection does not stop the page). -/
def clientRun (st : ClientState) (msgs : List Envelope) : ClientState :=
  msgs.foldl (fun s m => (clientOnMessage s m).state) st

/-- The `senderId` of the first received envelope whose `senderId` field
is truthy - the value `state.myPeerId` ends up holding (`client.js`
lines 66-68). -/
def firstStampedSenderId (msgs : List Envelope) : Option Nat :=
  match msgs.find? (fun e => optNatTruthy e.senderId) with
  | some e => e.senderId
  | none => none

/-- Executable model of the JS `String.prototype.trim` applied to the
input box value: strip leading and trailing whitespace. -/
def jsTrim (s : String) : String :=
  ⟨((s.data.dropWhile Char.isWhitespace).reverse.dropWhile Char.isWhitespace).reverse⟩

/-- The object a chat message is fanned out as (`client.js` lines
209-213). -/
structure MessageData where
  message : String
  senderId : Option Nat
  username : String
deriving Repr, DecidableEq

/-- `sendMessage()` (`client.js` lines 205-224): trim the input; when
non-empty, build `messageData` with `senderId: state.myPeerId` and write
it to every data channel whose `readyState` is `'open'`.  Returns the
`(peerId, messageData)` pairs actually sent. -/
def sendMessage (st : ClientState) (username input : String) :
    List (Nat × MessageData) :=
  let message := jsTrim input
  if message != "" then
    let md : MessageData := { message := message, senderId := st.myPeerId, username := username }
    (st.dataChannels.filter (fun p => p.2.readyState == "open")).map (fun p => (p.1, md))
  else []

/-! ### Association-list (JS `Map`) lemmas -/

theorem Assoc.get_erase_self (l : List (Nat × α)) (k : Nat) :
    Assoc.get (Assoc.erase l k) k = none := by
  induction l with
  | nil => rfl
  | cons hd tl _ =>
    obtain ⟨a, b⟩ := hd
    by_cases h : a = k
    · simp [Assoc.erase, Assoc.get, List.filter_cons, h]
    · simp [Assoc.erase, Assoc.get, List.filter_cons, h]

theorem Assoc.get_erase_ne (l : List (Nat × α)) (k q : Nat) (h : q ≠ k) :
    Assoc.get (Assoc.erase l k) q = Assoc.get l q := by
  induction l with
  | nil => rfl
  | cons hd tl ih =>
    obtain ⟨a, b⟩ := hd
    have hk : ¬(k = q) := fun hh => h hh.symm
    by_cases h1 : a = k
    · simpa [Assoc.erase, Assoc.get, List.filter_cons, h1, hk, h] using ih
    · by_cases h2 : a = q
      · simp [Assoc.erase, Assoc.get, List.filter_cons, h1, h2, hk, h]
      · simpa [Assoc.erase, Assoc.get, List.filter_cons, h1, h2, hk, h] using ih

/-! ### Claim C1 - untargeted envelopes are NOT broadcast

The claim says every client-originated envelope without `targetPeerId`
reaching the router after registration is broadcast to all other open
registered peers.  The router (`server.js` lines 61-75) has no broadcast
branch at all: such envelopes are dropped. -/

/-- C1 counterexample: with peers 1 ("alice") and 2 ("bob") both
registered and open, an `offer` envelope from peer 1 without a
`targetPeerId` produces no deliveries at all, although peer 2 is another
currently registered peer with an open transport - refuting the claimed
broadcast. -/
theorem C1_counterexample :
    handleMessage ⟨3, [(1, ⟨true, some "alice"⟩), (2, ⟨true, some "bob"⟩)]⟩
      1 (some "alice") (Frame.ok { type := "offer" }) =
      Except.ok ⟨⟨3, [(1, ⟨true, some "alice"⟩), (2, ⟨true, some "bob"⟩)]⟩, [], false, none⟩ ∧
    Assoc.get ([(1, ⟨true, some "alice"⟩), (2, ⟨true, some "bob"⟩)] : List (Nat × RClient)) 2 =
      some ⟨true, some "bob"⟩ :=
  ⟨rfl, rfl⟩

/-- C1 amended: an envelope reaching the post-registration message
handler with no `targetPeerId` field is silently dropped - the relay
delivers it to nobody, leaves its state unchanged and does not close the
transport. -/
theorem C1_amended (s : ServerState) (c : Nat) (u : Option String) (e : Envelope)
    (h : e.targetPeerId = none) :
    handleMessage s c u (Frame.ok e) =
      Except.ok { state := s, sends := [], closedSelf := false } := by
  unfold handleMessage
  simp [h]

/-- C1 amended, witness: a concrete untargeted envelope is dropped. -/
theorem C1_amended_witness :
    handleMessage { nextClientId := 2, clients := [(1, { wsOpen := true, username := some "a" })] }
      1 (some "a") (Frame.ok { type := "offer" }) =
      Except.ok
        { state := { nextClientId := 2, clients := [(1, { wsOpen := true, username := some "a" })] },
          sends := [], closedSelf := false } :=
  C1_amended _ 1 (some "a") { type := "offer" } rfl

/-! ### Claim C2 - protocol violations

The claim says ANY frame failing JSON parsing closes that transport with
no process-level failure.  That is true only for the FIRST frame of a
connection (`ws.once('message')` wraps its body in try/catch); the
post-registration handler (`server.js` line 62) calls `JSON.parse`
outside any try/catch, so a malformed later frame raises an uncaught
exception instead of closing the transport. -/

/-- C2 counterexample: a malformed frame arriving at the
post-registration message handler of registered peer 1 raises an uncaught
exception (`Except.error`): the handler returns no `StepOut` at all, so
the transport is not closed, contradicting the claimed
close-with-no-process-failure behavior. -/
theorem C2_counterexample :
    handleMessage ⟨2, [(1, ⟨true, some "alice"⟩)]⟩ 1 (some "alice") Frame.malformed =
      Except.error "SyntaxError: Unexpected token in JSON" :=
  rfl

/-- C2 amended: a malformed FIRST frame, or a first frame whose type is
not `register`, makes the relay close that one transport, leaving the
registry (and hence every other peer) untouched and producing no sends;
but a malformed frame arriving AFTER registration instead escapes the
message handler as an uncaught exception (the transport is not closed by
the handler). -/
theorem C2_amended :
    (∀ (s : ServerState) (c : Nat) (op : Bool),
      handleFirstMessage s c op Frame.malformed = ⟨s, [], true, none⟩) ∧
    (∀ (s : ServerState) (c : Nat) (op : Bool) (e : Envelope), e.type ≠ "register" →
      handleFirstMessage s c op (Frame.ok e) = ⟨s, [], true, none⟩) ∧
    (∀ (s : ServerState) (c : Nat) (u : Option String),
      handleMessage s c u Frame.malformed =
        Except.error "SyntaxError: Unexpected token in JSON") := by
  refine ⟨fun s c op => rfl, fun s c op e he => ?_, fun s c u => rfl⟩
  unfold handleFirstMessage
  simp [he]

/-- C2 amended, witness: a first frame of type `"hello"` on a fresh
connection is rejected by closing the transport, with no registry
change. -/
theorem C2_amended_witness :
    handleFirstMessage ⟨2, []⟩ 1 true (Frame.ok { type := "hello" }) = ⟨⟨2, []⟩, [], true, none⟩ :=
  C2_amended.2.1 ⟨2, []⟩ 1 true { type := "hello" } (by decide)

/-! ### Claim C3 - the existing-peers envelope

The claim says every successful registration is answered with exactly one
`existing-peers` envelope, the first registrant receiving an empty list.
The code (`server.js` line 42) only sends it when
`existingPeers.length > 0`: the first registrant receives nothing. -/

/-- C3 counterexample: the very first registration (empty registry)
succeeds - `registeredUsername` is set - yet produces no sends at all; in
particular no `existing-peers` envelope with an empty `peers` list is
delivered, contrary to the claim. -/
theorem C3_counterexample :
    handleFirstMessage ⟨1, []⟩ 1 true (Frame.ok { type := "register", username := some "alice" }) =
      ⟨⟨1, [(1, ⟨true, some "alice"⟩)]⟩, [], false, some (some "alice")⟩ :=
  rfl

/-- C3 amended: right after a successful registration the relay sends
the new peer exactly one `existing-peers` envelope listing all other
currently registered peers when at least one other peer exists, and no
`existing-peers` envelope at all when the registrant is alone (the first
peer to register receives nothing). -/
theorem C3_amended (s : ServerState) (c : Nat) (op : Bool) (e : Envelope)
    (h : e.type = "register") :
    ((handleFirstMessage s c op (Frame.ok e)).sends.filter
        (fun d => d.2.type == "existing-peers")) =
      (let others := ((Assoc.set s.clients c ⟨op, e.username⟩).filter
          (fun p => p.1 != c)).map (fun p => (p.1, p.2.username))
       if others.length > 0 then
         [(c, { type := "existing-peers", peers := others })]
       else []) := by
  unfold handleFirstMessage
  simp only [h]
  by_cases hl : (((Assoc.set s.clients c ⟨op, e.username⟩).filter
      (fun p => p.1 != c)).map (fun p => (p.1, p.2.username))).length > 0
  · simp [hl, List.filter_append, List.filter_map, List.filter_cons]
  · simp [hl, List.filter_append, List.filter_map]

/-- C3 amended, witness: with "alice" (open, id 1) already registered,
"bob" registering as id 2 receives exactly one `existing-peers` envelope
listing alice. -/
theorem C3_amended_witness :
    ((handleFirstMessage ⟨3, [(1, ⟨true, some "alice"⟩)]⟩ 2 true
        (Frame.ok { type := "register", username := some "bob" })).sends.filter
      (fun d => d.2.type == "existing-peers")) =
      [(2, { type := "existing-peers", peers := [(1, some "alice")] })] := by
  have h := C3_amended ⟨3, [(1, ⟨true, some "alice"⟩)]⟩ 2 true
    { type := "register", username := some "bob" } rfl
  simpa using h

/-! ### Claim C6 - targeted forwarding -/

/-- C6: a parsed envelope carrying `targetPeerId = t` (truthy, i.e.
`t ≠ 0`; relay ids start at 1) is stamped with the sender's id and
username and delivered to exactly `t`'s transport if and only if `t` is
currently in the registry with an open socket; otherwise nothing is
delivered; in every case the handler returns normally (no error reaches
the sender) and the registry is unchanged. -/
theorem C6_targeted (s : ServerState) (c : Nat) (u : Option String) (e : Envelope)
    (t : Nat) (ht : e.targetPeerId = some t) (h0 : t ≠ 0) :
    handleMessage s c u (Frame.ok e) =
      Except.ok
        { state := s,
          sends :=
            match Assoc.get s.clients t with
            | some targetPeer =>
              if targetPeer.wsOpen then [(t, { e with senderId := some c, username := u })]
              else []
            | none => [],
          closedSelf := false } := by
  unfold handleMessage
  simp only [ht]
  match hg : Assoc.get s.clients t with
  | some targetPeer => by_cases ho : targetPeer.wsOpen <;> simp [h0, hg, ho]
  | none => simp [h0, hg]

/-- C6 witness: target 2 is registered and open, so the offer from
peer 1 is delivered exactly once to 2, stamped `senderId := 1`,
`username := "alice"`; the same theorem applied to the unregistered
target 9 yields zero deliveries with no error. -/
theorem C6_targeted_witness :
    handleMessage ⟨3, [(1, ⟨true, some "alice"⟩), (2, ⟨true, some "bob"⟩)]⟩
      1 (some "alice") (Frame.ok { type := "offer", targetPeerId := some 2, offer := some "sdp" }) =
      Except.ok ⟨⟨3, [(1, ⟨true, some "alice"⟩), (2, ⟨true, some "bob"⟩)]⟩,
        [(2, { type := "offer", targetPeerId := some 2, offer := some "sdp",
               senderId := some 1, username := some "alice" })], false, none⟩ ∧
    handleMessage ⟨3, [(1, ⟨true, some "alice"⟩), (2, ⟨true, some "bob"⟩)]⟩
      1 (some "alice") (Frame.ok { type := "offer", targetPeerId := some 9, offer := some "sdp" }) =
      Except.ok ⟨⟨3, [(1, ⟨true, some "alice"⟩), (2, ⟨true, some "bob"⟩)]⟩, [], false, none⟩ := by
  constructor
  · have h := C6_targeted ⟨3, [(1, ⟨true, some "alice"⟩), (2, ⟨true, some "bob"⟩)]⟩
      1 (some "alice") { type := "offer", targetPeerId := some 2, offer := some "sdp" } 2 rfl
      (by decide)
    simpa using h
  · have h := C6_targeted ⟨3, [(1, ⟨true, some "alice"⟩), (2, ⟨true, some "bob"⟩)]⟩
      1 (some "alice") { type := "offer", targetPeerId := some 9, offer := some "sdp" } 9 rfl
      (by decide)
    simpa using h

/-! ### Claim C8 - client-side peer-disconnected cleanup -/

/-- C8: processing `peer-disconnected` for peer `p` removes `p`'s
connection handle, data channel and username record entirely (no
tombstone: every lookup of `p` afterwards is `none`), while the records
of any other peer `q` and the client's own id are untouched. -/
theorem C8_peer_disconnected (st : ClientState) (p q : Nat) (hq : q ≠ p) :
    Assoc.get (handlePeerDisconnection st p).1.peerConnections p = none ∧
    Assoc.get (handlePeerDisconnection st p).1.dataChannels p = none ∧
    Assoc.get (handlePeerDisconnection st p).1.peerUsernames p = none ∧
    Assoc.get (handlePeerDisconnection st p).1.peerConnections q =
      Assoc.get st.peerConnections q ∧
    Assoc.get (handlePeerDisconnection st p).1.dataChannels q =
      Assoc.get st.dataChannels q ∧
    Assoc.get (handlePeerDisconnection st p).1.peerUsernames q =
      Assoc.get st.peerUsernames q ∧
    (handlePeerDisconnection st p).1.myPeerId = st.myPeerId := by
  unfold handlePeerDisconnection
  match hg : Assoc.get st.peerConnections p with
  | some pc =>
    simp [hg, Assoc.get_erase_self, Assoc.get_erase_ne _ _ _ hq]
  | none =>
    simp [hg, Assoc.get_erase_self, Assoc.get_erase_ne _ _ _ hq]

/-- C8 witness: disconnecting peer 2 clears all three of its records
while peer 5's records survive unchanged. -/
theorem C8_peer_disconnected_witness :
    Assoc.get (handlePeerDisconnection
      { peerConnections := [(2, {}), (5, {})],
        dataChannels := [(2, {}), (5, ⟨"open"⟩)],
        peerUsernames := [(2, some "bob"), (5, some "eve")],
        myPeerId := none } 2).1.peerConnections 2 = none ∧
    Assoc.get (handlePeerDisconnection
      { peerConnections := [(2, {}), (5, {})],
        dataChannels := [(2, {}), (5, ⟨"open"⟩)],
        peerUsernames := [(2, some "bob"), (5, some "eve")],
        myPeerId := none } 2).1.dataChannels 5 = some ⟨"open"⟩ := by
  have h := C8_peer_disconnected
    { peerConnections := [(2, {}), (5, {})],
      dataChannels := [(2, {}), (5, ⟨"open"⟩)],
      peerUsernames := [(2, some "bob"), (5, some "eve")],
      myPeerId := none } 2 5 (by decide)
  exact ⟨h.1, by rw [h.2.2.2.2.1]; rfl⟩

/-! ### Claim C4 - error handling while applying remote descriptions

`handleAnswer` and `handleIceCandidate` wrap the transport-library call
in try/catch and log at `error` level; `handleOffer` does NOT (its
`setRemoteDescription` call at `client.js` line 141 is bare), so an error
raised while applying a remote offer escapes the `ws.onmessage` handler
uncaught - refuting the claim's "including a received offer". -/

/-- C4 counterexample: peer 2 has a connection handle; an `offer`
envelope from peer 2 whose description is rejected by the transport
library makes the error escape `ws.onmessage` uncaught (`threw` is set),
and no `error`-level log entry is produced - the error is not caught and
logged, contrary to the claim. -/
theorem C4_counterexample :
    (clientOnMessage { peerConnections := [(2, {})] }
        { type := "offer", senderId := some 2, offer := some "" }).threw =
      some "InvalidSdpError" ∧
    ((clientOnMessage { peerConnections := [(2, {})] }
        { type := "offer", senderId := some 2, offer := some "" }).logs.all
      (fun lg => lg.1 != "error")) = true :=
  ⟨rfl, rfl⟩

/-- C4 amended: an error thrown while applying a remote ANSWER or a
remote ICE candidate is caught, logged at `error` level and leaves the
client state untouched; but an error thrown while applying a remote
OFFER is not caught: it propagates out of `handleOffer`. -/
theorem C4_amended :
    (∀ (st : ClientState) (data : Envelope) (pid : Nat) (pc : RTCPeerConnection) (err : String),
      data.senderId = some pid →
      Assoc.get st.peerConnections pid = some pc →
      pc.setRemoteDescription ((data.answer).getD "") = Except.error err →
      handleAnswer st data = (st, [("error", "Error setting remote description: " ++ err)])) ∧
    (∀ (st : ClientState) (data : Envelope) (pid : Nat) (pc : RTCPeerConnection) (err : String),
      data.senderId = some pid →
      Assoc.get st.peerConnections pid = some pc →
      pc.addIceCandidate ((data.candidate).getD "") = Except.error err →
      handleIceCandidate st data = (st, [("error", "Error adding received ice candidate: " ++ err)])) ∧
    (∀ (st : ClientState) (data : Envelope) (pid : Nat) (pc : RTCPeerConnection) (err : String),
      data.senderId = some pid →
      Assoc.get st.peerConnections pid = some pc →
      pc.setRemoteDescription ((data.offer).getD "") = Except.error err →
      handleOffer st data = (st, [], some err)) := by
  refine ⟨fun st data pid pc err hs hg he => ?_,
          fun st data pid pc err hs hg he => ?_,
          fun st data pid pc err hs hg he => ?_⟩
  · unfold handleAnswer
    simp [hs, hg, he]
  · unfold handleIceCandidate
    simp [hs, hg, he]
  · unfold handleOffer
    simp [hs, hg, he]

/-- C4 amended, witness: with a connection handle for peer 2 and a
description/candidate the library rejects, the answer and candidate
errors are caught and logged with the state unchanged, while the offer
error propagates. -/
theorem C4_amended_witness :
    handleAnswer { peerConnections := [(2, {})] }
        { type := "answer", senderId := some 2, answer := some "" } =
      ({ peerConnections := [(2, {})] },
       [("error", "Error setting remote description: InvalidSdpError")]) ∧
    handleIceCandidate { peerConnections := [(2, {})] }
        { type := "ice-candidate", senderId := some 2, candidate := some "c" } =
      ({ peerConnections := [(2, {})] },
       [("error", "Error adding received ice candidate: InvalidStateError")]) ∧
    handleOffer { peerConnections := [(2, {})] }
        { type := "offer", senderId := some 2, offer := some "" } =
      ({ peerConnections := [(2, {})] }, [], some "InvalidSdpError") :=
  ⟨C4_amended.1 _ _ 2 {} "InvalidSdpError" rfl rfl rfl,
   C4_amended.2.1 _ _ 2 {} "InvalidStateError" rfl rfl rfl,
   C4_amended.2.2 _ _ 2 {} "InvalidSdpError" rfl rfl rfl⟩

/-! ### Claim C5 - no ICE candidate queue

The claim requires candidates that arrive before the remote description
to be queued and replayed.  `handleIceCandidate` (`client.js` lines
163-172) calls `addIceCandidate` immediately and merely logs the
rejection; no queue exists anywhere in the client state, so an early
candidate is lost for good. -/

/-- C5 counterexample: peer 2's connection exists but has no remote
description.  An `ice-candidate` envelope for "cand1" arrives, then an
`answer` applies the remote description.  Afterwards the connection holds
NO applied candidates: "cand1" was dropped when the library rejected it,
not queued and replayed - refuting the claim. -/
theorem C5_counterexample :
    Assoc.get (clientRun { peerConnections := [(2, {})] }
        [{ type := "ice-candidate", senderId := some 2, candidate := some "cand1" },
         { type := "answer", senderId := some 2, answer := some "sdp" }]).peerConnections 2 =
      some { localDescription := none, remoteDescription := some "sdp",
             appliedCandidates := [] } :=
  rfl

/-- C5 amended: an `ice-candidate` envelope for a known peer whose
connection has no remote description yet is handed to `addIceCandidate`
immediately; the resulting `InvalidStateError` is caught and logged at
`error` level and the client state is left exactly as it was - the
candidate is dropped, no queue or replay exists. -/
theorem C5_amended (st : ClientState) (data : Envelope) (pid : Nat)
    (pc : RTCPeerConnection) (hs : data.senderId = some pid)
    (hg : Assoc.get st.peerConnections pid = some pc)
    (hrd : pc.remoteDescription = none) :
    handleIceCandidate st data =
      (st, [("error", "Error adding received ice candidate: InvalidStateError")]) := by
  unfold handleIceCandidate
  simp [hs, hg, RTCPeerConnection.addIceCandidate, hrd]

/-- C5 amended, witness: a concrete early candidate for peer 2 is
dropped with only an error log. -/
theorem C5_amended_witness :
    handleIceCandidate { peerConnections := [(2, {})] }
        { type := "ice-candidate", senderId := some 2, candidate := some "cand1" } =
      ({ peerConnections := [(2, {})] },
       [("error", "Error adding received ice candidate: InvalidStateError")]) :=
  C5_amended _ _ 2 {} rfl rfl rfl

/-! ### Relay handler bookkeeping lemmas -/

theorem handleFirstMessage_nextClientId (s : ServerState) (c : Nat) (op : Bool) (f : Frame) :
    (handleFirstMessage s c op f).state.nextClientId = s.nextClientId := by
  unfold handleFirstMessage
  cases f with
  | malformed => rfl
  | ok e => by_cases h : e.type = "register" <;> simp [h]

theorem handleFirstMessage_registered (s : ServerState) (c : Nat) (op : Bool) (f : Frame) :
    (handleFirstMessage s c op f).registeredUsername = none ∨
    ∃ e, f = Frame.ok e ∧ e.type = "register" := by
  unfold handleFirstMessage
  cases f with
  | malformed => exact Or.inl rfl
  | ok e =>
    by_cases h : e.type = "register"
    · exact Or.inr ⟨e, rfl, h⟩
    · simp [h]

theorem handleMessage_ok_state (s : ServerState) (c : Nat) (u : Option String) (f : Frame)
    (out : StepOut) (h : handleMessage s c u f = Except.ok out) : out.state = s := by
  unfold handleMessage at h
  cases f with
  | malformed => cases h
  | ok e =>
    dsimp only at h
    split at h
    · split at h
      · split at h
        · split at h <;> (cases h; rfl)
        · cases h; rfl
      · cases h; rfl
    · cases h; rfl

theorem handleClose_nextClientId (s : ServerState) (c : Nat) :
    (handleClose s c).1.nextClientId = s.nextClientId := by
  unfold handleClose
  cases hg : Assoc.get s.clients c <;> simp [hg]

/-! ### The run invariant -/

theorem sysInv_init : SysInv sysInit := by
  constructor <;> simp [sysInit]

theorem sysInv_step (s : SysState) (ev : SysEvent) (h : SysInv s) : SysInv (sysStep s ev) := by
  by_cases hc : s.crashed
  · simpa [sysStep, hc] using h
  rw [show sysStep s ev = sysStepCore s ev from by simp [sysStep, hc]]
  cases ev with
  | connect =>
    simp only [sysStepCore, handleConnection]
    refine ⟨?_, ?_, ?_, ?_, ?_, ?_, ?_⟩
    · intro i hi
      rcases List.mem_append.mp hi with hi | hi
      · exact Nat.lt_succ_of_lt (h.issuedLt i hi)
      · rw [List.mem_singleton.mp hi]; exact Nat.lt_succ_self _
    · refine List.pairwise_append.mpr ⟨h.issuedSorted, List.pairwise_singleton _ _, ?_⟩
      intro a ha b hb
      rw [List.mem_singleton.mp hb]
      exact h.issuedLt a ha
    · intro i hi
      rcases List.mem_append.mp hi with hi | hi
      · exact List.mem_append.mpr (Or.inl (h.pendingSub i hi))
      · exact List.mem_append.mpr (Or.inr hi)
    · refine List.nodup_append.mpr ⟨h.pendingNodup, List.nodup_singleton _, ?_⟩
      intro a ha hb
      rw [List.mem_singleton.mp hb] at ha
      exact Nat.lt_irrefl _ (h.issuedLt _ (h.pendingSub _ ha))
    · intro i hi
      exact List.mem_append.mpr (Or.inl (h.regSub i hi))
    · exact h.regNodup
    · intro i hi
      rcases List.mem_append.mp hi with hi | hi
      · exact h.pendingNotReg i hi
      · rw [List.mem_singleton.mp hi]
        intro hreg
        exact Nat.lt_irrefl _ (h.issuedLt _ (h.regSub _ hreg))
  | firstMsg c op f =>
    simp only [sysStepCore]
    by_cases hp : s.pending.contains c
    · have hcm : c ∈ s.pending := by simpa using hp
      rw [if_pos hp]
      have hnext := handleFirstMessage_nextClientId s.server c op f
      generalize hu : (handleFirstMessage s.server c op f).registeredUsername = ru
      cases ru with
      | none =>
        refine ⟨?_, h.issuedSorted, ?_, ?_, h.regSub, h.regNodup, ?_⟩
        · intro i hi; rw [hnext]; exact h.issuedLt i hi
        · intro i hi; exact h.pendingSub i (List.mem_filter.mp hi).1
        · exact h.pendingNodup.filter _
        · intro i hi; exact h.pendingNotReg i (List.mem_filter.mp hi).1
      | some u =>
        refine ⟨?_, h.issuedSorted, ?_, ?_, ?_, ?_, ?_⟩
        · intro i hi; rw [hnext]; exact h.issuedLt i hi
        · intro i hi; exact h.pendingSub i (List.mem_filter.mp hi).1
        · exact h.pendingNodup.filter _
        · intro i hi
          rcases List.mem_append.mp hi with hi | hi
          · exact h.regSub i hi
          · rw [List.mem_singleton.mp hi]; exact h.pendingSub c hcm
        · refine List.nodup_append.mpr ⟨h.regNodup, List.nodup_singleton _, ?_⟩
          intro a ha hb
          rw [List.mem_singleton.mp hb] at ha
          exact h.pendingNotReg c hcm ha
        · intro i hi hmem
          have hip : i ∈ s.pending := (List.mem_filter.mp hi).1
          have hic : (i != c) = true := (List.mem_filter.mp hi).2
          rcases List.mem_append.mp hmem with hm | hm
          · exact h.pendingNotReg i hip hm
          · exact absurd (List.mem_singleton.mp hm) (by simpa using hic)
    · rw [if_neg hp]; exact h
  | msg c f =>
    simp only [sysStepCore]
    generalize Assoc.get s.sessions c = g
    cases g with
    | none => exact h
    | some u =>
      dsimp only
      generalize hm : handleMessage s.server c u f = r
      cases r with
      | error e => exact ⟨h.issuedLt, h.issuedSorted, h.pendingSub, h.pendingNodup,
          h.regSub, h.regNodup, h.pendingNotReg⟩
      | ok out =>
        have hst : out.state = s.server := handleMessage_ok_state _ _ _ _ _ hm
        refine ⟨?_, h.issuedSorted, h.pendingSub, h.pendingNodup,
          h.regSub, h.regNodup, h.pendingNotReg⟩
        intro i hi
        rw [show ({ s with server := out.state, crashed := false } : SysState).server = out.state
          from rfl, hst]
        exact h.issuedLt i hi
  | close c =>
    simp only [sysStepCore]
    refine ⟨?_, h.issuedSorted, ?_, ?_, h.regSub, h.regNodup, ?_⟩
    · intro i hi
      rw [handleClose_nextClientId]
      exact h.issuedLt i hi
    · intro i hi; exact h.pendingSub i (List.mem_filter.mp hi).1
    · exact h.pendingNodup.filter _
    · intro i hi; exact h.pendingNotReg i (List.mem_filter.mp hi).1

theorem sysInv_run (evs : List SysEvent) : ∀ s, SysInv s → SysInv (sysRun s evs) := by
  induction evs with
  | nil => exact fun s h => h
  | cons e t ih => exact fun s h => ih _ (sysInv_step s e h)

/-! ### Claim C7 - ids are strictly increasing and never reused -/

/-- C7: along any sequence of connection, first-message, message and
close events handled by one relay process, the clientIds issued by
`nextClientId++` are strictly increasing in issuance order, and hence no
id is ever issued twice. -/
theorem C7_ids_strictly_increasing (evs : List SysEvent) :
    ((sysRun sysInit evs).issued.Pairwise (· < ·)) ∧ (sysRun sysInit evs).issued.Nodup := by
  have h := sysInv_run evs sysInit sysInv_init
  exact ⟨h.issuedSorted, h.issuedSorted.imp Nat.ne_of_lt⟩

/-! ### Claim C10 - allocation happens at connect, ids are consumed -/

/-- C10: (1) the connection prologue allocates the current
`nextClientId` and only increments the counter - the registry is not
touched and no frame has been seen yet; (2) along any run the
successfully registered ids are pairwise distinct and all drawn from the
issued ids (which theorem `C7` shows strictly increasing); (3) the
registered ids need not be consecutive: in the run where connection 2
sends a non-register first frame, ids 1, 2, 3 are issued but only 1 and 3
register - the violating connection still consumed id 2. -/
theorem C10_alloc_at_connect :
    (∀ s : ServerState, handleConnection s =
      (s.nextClientId, { s with nextClientId := s.nextClientId + 1 })) ∧
    (∀ evs : List SysEvent,
      (sysRun sysInit evs).registeredIds.Nodup ∧
      ((sysRun sysInit evs).registeredIds.all
        (fun c => (sysRun sysInit evs).issued.contains c)) = true) ∧
    (∃ evs : List SysEvent,
      (sysRun sysInit evs).issued = [1, 2, 3] ∧
      (sysRun sysInit evs).registeredIds = [1, 3]) := by
  refine ⟨fun s => rfl, fun evs => ?_, ?_⟩
  · have h := sysInv_run evs sysInit sysInv_init
    refine ⟨h.regNodup, ?_⟩
    rw [List.all_eq_true]
    intro c hcm
    simpa using h.regSub c hcm
  · refine ⟨[SysEvent.connect,
      SysEvent.firstMsg 1 true (Frame.ok { type := "register", username := some "alice" }),
      SysEvent.connect,
      SysEvent.firstMsg 2 true (Frame.ok { type := "hello" }),
      SysEvent.connect,
      SysEvent.firstMsg 3 true (Frame.ok { type := "register", username := some "carol" })],
      rfl, rfl⟩

/-! ### Claim C9 - `myPeerId` and the `senderId` of fanned-out messages

Preservation lemmas: no client handler ever writes `myPeerId`; only the
`if (!state.myPeerId && data.senderId)` line of `ws.onmessage` does. -/

theorem createPeerConnection_myPeerId (st : ClientState) (p : Nat) (i : Bool) :
    (createPeerConnection st p i).1.myPeerId = st.myPeerId := by
  unfold createPeerConnection
  cases i <;> simp

theorem existingPeersStep_myPeerId (acc : ClientState × List Envelope)
    (peer : Nat × Option String) :
    (existingPeersStep acc peer).1.myPeerId = acc.1.myPeerId := by
  unfold existingPeersStep
  simp [createPeerConnection_myPeerId]

theorem foldl_existingPeersStep_myPeerId (peers : List (Nat × Option String)) :
    ∀ acc : ClientState × List Envelope,
      (peers.foldl existingPeersStep acc).1.myPeerId = acc.1.myPeerId := by
  induction peers with
  | nil => intro acc; rfl
  | cons p t ih =>
    intro acc
    rw [List.foldl_cons, ih, existingPeersStep_myPeerId]

theorem handleOffer_myPeerId (st : ClientState) (data : Envelope) :
    (handleOffer st data).1.myPeerId = st.myPeerId := by
  unfold handleOffer
  cases data.senderId with
  | none => rfl
  | some pid =>
    dsimp only
    cases hg : Assoc.get st.peerConnections pid with
    | some pc =>
      dsimp only
      cases RTCPeerConnection.setRemoteDescription pc ((data.offer).getD "") <;> rfl
    | none =>
      dsimp only
      cases RTCPeerConnection.setRemoteDescription {} ((data.offer).getD "") <;>
        simp [createPeerConnection_myPeerId]

theorem handleAnswer_myPeerId (st : ClientState) (data : Envelope) :
    (handleAnswer st data).1.myPeerId = st.myPeerId := by
  unfold handleAnswer
  cases data.senderId with
  | none => rfl
  | some pid =>
    dsimp only
    cases Assoc.get st.peerConnections pid with
    | none => rfl
    | some pc =>
      dsimp only
      cases RTCPeerConnection.setRemoteDescription pc ((data.answer).getD "") <;> rfl

theorem handleIceCandidate_myPeerId (st : ClientState) (data : Envelope) :
    (handleIceCandidate st data).1.myPeerId = st.myPeerId := by
  unfold handleIceCandidate
  cases data.senderId with
  | none => rfl
  | some pid =>
    dsimp only
    cases Assoc.get st.peerConnections pid with
    | none => rfl
    | some pc =>
      dsimp only
      cases RTCPeerConnection.addIceCandidate pc ((data.candidate).getD "") <;> rfl

theorem handlePeerDisconnection_myPeerId (st : ClientState) (p : Nat) :
    (handlePeerDisconnection st p).1.myPeerId = st.myPeerId := by
  unfold handlePeerDisconnection
  cases Assoc.get st.peerConnections p <;> rfl

theorem clientDispatch_myPeerId (st : ClientState) (data : Envelope) :
    (clientDispatch st data).state.myPeerId = st.myPeerId := by
  unfold clientDispatch
  repeat' split
  all_goals
    simp [foldl_existingPeersStep_myPeerId, createPeerConnection_myPeerId,
      handleOffer_myPeerId, handleAnswer_myPeerId, handleIceCandidate_myPeerId,
      handlePeerDisconnection_myPeerId]

theorem clientOnMessage_myPeerId (st : ClientState) (e : Envelope) :
    (clientOnMessage st e).state.myPeerId =
      (if !(optNatTruthy st.myPeerId) && optNatTruthy e.senderId then e.senderId
       else st.myPeerId) := by
  unfold clientOnMessage
  split
  · rw [clientDispatch_myPeerId]
  · rw [clientDispatch_myPeerId]

theorem clientRun_myPeerId (msgs : List Envelope) :
    ∀ st : ClientState, (clientRun st msgs).myPeerId =
      (if optNatTruthy st.myPeerId then st.myPeerId
       else
        match msgs.find? (fun e => optNatTruthy e.senderId) with
        | some e => e.senderId
        | none => st.myPeerId) := by
  induction msgs with
  | nil =>
    intro st
    by_cases h : optNatTruthy st.myPeerId
    · rw [if_pos h]; rfl
    · rw [if_neg h]; rfl
  | cons m t ih =>
    intro st
    have hstep : clientRun st (m :: t) = clientRun (clientOnMessage st m).state t := rfl
    rw [hstep, ih, clientOnMessage_myPeerId]
    by_cases h1 : optNatTruthy st.myPeerId <;> by_cases h2 : optNatTruthy m.senderId <;>
      simp [h1, h2]

theorem sendMessage_senderId (st : ClientState) (uname input : String)
    (d : Nat × MessageData) (hd : d ∈ sendMessage st uname input) :
    d.2.senderId = st.myPeerId := by
  unfold sendMessage at hd
  dsimp only at hd
  split at hd
  · obtain ⟨p, _, hpd⟩ := List.mem_map.mp hd
    rw [← hpd]
  · cases hd

/-- Helper for C9: every envelope the post-registration router actually
delivers carries `senderId = some c` where `c` is the id of the client
whose handler ran - the relay stamps the sender's own id and attaches no
other id. -/
theorem handleMessage_sends_senderId (s : ServerState) (c : Nat) (u : Option String)
    (e : Envelope) (out : StepOut) (h : handleMessage s c u (Frame.ok e) = Except.ok out) :
    ∀ d ∈ out.sends, d.2.senderId = some c := by
  unfold handleMessage at h
  dsimp only at h
  split at h
  · split at h
    · split at h
      · split at h
        · cases h
          intro d hd
          rw [List.mem_singleton.mp hd]
        · cases h
          intro d hd
          cases hd
      · cases h
        intro d hd
        cases hd
    · cases h
      intro d hd
      cases hd
  · cases h
    intro d hd
    cases hd

/-- C9: (1) the relay stamps every delivered envelope's `senderId` with
the id of the client that sent it (a remote peer from the recipient's
point of view) and stamps nothing else, so a client is never told its own
id by any relay envelope it did not itself address to itself; (2) every
chat message fanned out by `sendMessage` carries
`senderId = state.myPeerId`; (3) `myPeerId` is exactly the `senderId` of
the first received envelope carrying a truthy one (`null` before that);
(4) hence over any received trace in which no envelope is stamped with
the client's own id, every fanned-out `senderId` is `null` or the id of
some remote sender, never the client's own. -/
theorem C9_senderId_never_own :
    (∀ (s : ServerState) (c : Nat) (u : Option String) (e : Envelope) (out : StepOut),
      handleMessage s c u (Frame.ok e) = Except.ok out →
      ∀ d ∈ out.sends, d.2.senderId = some c) ∧
    (∀ (st : ClientState) (uname input : String) (d : Nat × MessageData),
      d ∈ sendMessage st uname input → d.2.senderId = st.myPeerId) ∧
    (∀ msgs : List Envelope,
      (clientRun initClientState msgs).myPeerId = firstStampedSenderId msgs) ∧
    (∀ (msgs : List Envelope) (ownId : Nat),
      (∀ e ∈ msgs, e.senderId ≠ some ownId) →
      (clientRun initClientState msgs).myPeerId = none ∨
      ((∃ e ∈ msgs, (clientRun initClientState msgs).myPeerId = e.senderId) ∧
       (clientRun initClientState msgs).myPeerId ≠ some ownId)) := by
  refine ⟨handleMessage_sends_senderId, sendMessage_senderId, fun msgs => ?_, ?_⟩
  · rw [clientRun_myPeerId msgs initClientState]
    rfl
  · intro msgs ownId h
    have heq : (clientRun initClientState msgs).myPeerId = firstStampedSenderId msgs := by
      rw [clientRun_myPeerId msgs initClientState]; rfl
    cases hf : msgs.find? (fun e => optNatTruthy e.senderId) with
    | none =>
      left
      rw [heq]
      unfold firstStampedSenderId
      rw [hf]
    | some e =>
      right
      have hmem : e ∈ msgs := List.mem_of_find?_eq_some hf
      have hval : firstStampedSenderId msgs = e.senderId := by
        unfold firstStampedSenderId
        rw [hf]
      refine ⟨⟨e, hmem, by rw [heq, hval]⟩, by rw [heq, hval]; exact h e hmem⟩

/-- C9 witness: (1) the relay's delivery of a targeted offer sent by
peer 1 is stamped `senderId = 1`; (2) a chat message fanned out to the
open channel of peer 7 carries `senderId = myPeerId = 2`; (3) after
receiving one answer stamped by peer 2, `myPeerId` is 2, which differs
from the client's own id 1. -/
theorem C9_senderId_never_own_witness :
    ((2, { type := "offer", targetPeerId := some 2, offer := some "sdp",
           senderId := some 1, username := some "alice" }) : Nat × Envelope).2.senderId =
      some 1 ∧
    ((7, { message := "hi", senderId := some 2, username := "alice" }) :
        Nat × MessageData).2.senderId =
      ({ dataChannels := [(7, ⟨"open"⟩)], myPeerId := some 2 } : ClientState).myPeerId ∧
    ((clientRun initClientState
        [{ type := "answer", senderId := some 2, answer := some "sdp" }]).myPeerId = none ∨
      ((∃ e ∈ [({ type := "answer", senderId := some 2, answer := some "sdp" } : Envelope)],
        (clientRun initClientState
          [{ type := "answer", senderId := some 2, answer := some "sdp" }]).myPeerId =
            e.senderId) ∧
       (clientRun initClientState
          [{ type := "answer", senderId := some 2, answer := some "sdp" }]).myPeerId ≠
          some 1)) :=
  ⟨C9_senderId_never_own.1 ⟨3, [(1, ⟨true, some "alice"⟩), (2, ⟨true, some "bob"⟩)]⟩
      1 (some "alice") { type := "offer", targetPeerId := some 2, offer := some "sdp" }
      ⟨⟨3, [(1, ⟨true, some "alice"⟩), (2, ⟨true, some "bob"⟩)]⟩,
        [(2, { type := "offer", targetPeerId := some 2, offer := some "sdp",
               senderId := some 1, username := some "alice" })], false, none⟩
      rfl _ (List.mem_singleton.mpr rfl),
   C9_senderId_never_own.2.1 { dataChannels := [(7, ⟨"open"⟩)], myPeerId := some 2 }
      "alice" "hi" (7, { message := "hi", senderId := some 2, username := "alice" })
      (List.mem_singleton.mpr rfl),
   C9_senderId_never_own.2.2.2
      [{ type := "answer", senderId := some 2, answer := some "sdp" }] 1 (by decide)⟩

end LambdaChat
